import Mathlib

/-
Verification development for the PowerOcean extraction engine
(custom_components/powerocean/ecoflow.py and utils.py).

Modelling conventions, stated once here:

* JSON documents are modelled by the inductive type `J`.  Numbers are
  modelled as integers (the claims under study only involve integral
  values); floats are not modelled.
* Python dicts are modelled as association lists `List (String × α)`
  with the usual Python semantics: lookup returns the binding of the
  key, assignment replaces the value in place or appends a fresh
  binding at the end (`dset`), and iteration follows insertion order.
* `deserialize_json_strings` re-parses JSON embedded in string leaves.
  Documents in this development are modelled post-deserialization,
  i.e. embedded JSON strings already appear as structured values; a
  remaining string leaf is a plain, non-JSON string.
* Python exceptions are modelled by `Except PyErr`; a raised exception
  is `Except.error e` where `e` names the exception class.
* jsonpath field paths are modelled structurally as `List Seg` (a list
  of key / index / wildcard segments) carried alongside the raw field
  string of the variant schema; `jfind` models `jsonpath_ng` matching,
  whose discovery order is document order.
-/

set_option autoImplicit false

namespace PowerOcean

/-- JSON-like values, numbers modelled as integers. -/
inductive J where
  | null
  | boolean (b : Bool)
  | num (n : Int)
  | str (s : String)
  | arr (xs : List J)
  | obj (fields : List (String × J))

/-- Python exception classes that the embedded code can raise. -/
inductive PyErr where
  | keyError
  | typeError
  | attributeError
  | indexError
  | unboundLocalError
  | jsonDecodeError
deriving Repr, DecidableEq

/-- Python dict lookup `m.get(k)`: first binding of the key. -/
def dget {α : Type} : List (String × α) → String → Option α
  | [], _ => none
  | (k', v) :: rest, k => if k' = k then some v else dget rest k

/-- Python membership test `k in m`. -/
def dmem {α : Type} (m : List (String × α)) (k : String) : Bool :=
  (dget m k).isSome

/-- Python dict assignment `m[k] = v`: replace in place, else append. -/
def dset {α : Type} : List (String × α) → String → α → List (String × α)
  | [], k, v => [(k, v)]
  | (k', v') :: rest, k, v =>
      if k' = k then (k, v) :: rest else (k', v') :: dset rest k v

/-- Python truthiness of a JSON value (`if not d:` tests). -/
def truthy : J → Bool
  | .null => false
  | .boolean b => b
  | .num n => n != 0
  | .str s => s ≠ ""
  | .arr xs => !xs.isEmpty
  | .obj m => !m.isEmpty

/-
Python string primitives, modelled over character lists with structural
recursion so that every definition reduces inside the kernel (the
corresponding core String functions use well-founded recursion and do
not).  Keys in this code base are ASCII, for which Char.toLower agrees
with Python lower().
-/

/-- Python lower(). -/
def py_lower (s : String) : String := ⟨s.data.map Char.toLower⟩

/-- Python endswith(). -/
def py_endsWith (s post : String) : Bool := post.data.isSuffixOf s.data

/-- Python startswith(). -/
def py_startsWith (s pre : String) : Bool := pre.data.isPrefixOf s.data

/-- Python str.replace over character lists.  The fuel is the length of
the subject and suffices because every round consumes at least one
character. -/
def replace_list (pat rep : List Char) : Nat → List Char → List Char
  | _, [] => []
  | 0, s => s
  | fuel + 1, c :: cs =>
      if pat.isPrefixOf (c :: cs) && !pat.isEmpty then
        rep ++ replace_list pat rep fuel (List.drop (pat.length - 1) cs)
      else
        c :: replace_list pat rep fuel cs

/-- Python str.replace (all non-overlapping occurrences, left to
right). -/
def py_replace (s pat rep : String) : String :=
  ⟨replace_list pat.data rep.data s.data.length s.data⟩

namespace SensorMetaHelper

/-
SensorMetaHelper as defined in ecoflow.py (lines 80-152).  This is the
helper the report handlers in ecoflow.py call.
-/

/-- Suffix-to-unit table of `SensorMetaHelper.get_unit` (ecoflow.py). -/
def unit_mapping : List (String × String) :=
  [("pwr", "W"), ("power", "W"), ("amp", "A"), ("soc", "%"), ("soh", "%"),
   ("vol", "V"), ("watth", "Wh"), ("energy", "Wh"), ("percent", "%"),
   ("volume", "L"), ("temp", "°C")]

/-- ecoflow.py `SensorMetaHelper.get_unit`: first case-insensitive suffix
match wins; otherwise the case-sensitive substring test `"Generation" in key`
yields kWh; otherwise no unit. -/
def get_unit (key : String) : Option String :=
  match unit_mapping.find? (fun p => py_endsWith (py_lower key) p.1) with
  | some p => some p.2
  | none =>
      if "Generation".toList <:+: key.toList then some "kWh" else none

/-- Key-to-description table of `SensorMetaHelper.get_description`. -/
def description_mapping : List (String × String) :=
  [("sysLoadPwr", "Hausnetz"), ("sysGridPwr", "Stromnetz"),
   ("mpptPwr", "Solarertrag"), ("bpPwr", "Batterieleistung"),
   ("bpSoc", "Ladezustand der Batterie"), ("online", "Online"),
   ("systemName", "System Name"), ("createTime", "Installations Datum"),
   ("bpVol", "Batteriespannung"), ("bpAmp", "Batteriestrom"),
   ("bpCycles", "Ladezyklen"), ("bpTemp", "Temperatur der Batteriezellen")]

/-- ecoflow.py `SensorMetaHelper.get_description`: table lookup defaulting
to the raw key. -/
def get_description (key : String) : String :=
  (dget description_mapping key).getD key

/-- Key-to-icon table of `SensorMetaHelper.get_special_icon`. -/
def icon_mapping : List (String × String) :=
  [("mpptPwr", "mdi:solar-power"), ("online", "mdi:cloud-check"),
   ("sysGridPwr", "mdi:transmission-tower-import"),
   ("sysLoadPwr", "mdi:home-import-outline"), ("bpAmp", "mdi:current-dc")]

/-- ecoflow.py `SensorMetaHelper.get_special_icon`: table lookup, overridden
for keys starting with pv1/pv2/pv3. -/
def get_special_icon (key : String) : Option String :=
  let special := dget icon_mapping key
  if py_startsWith key "pv1" || py_startsWith key "pv2" ||
      py_startsWith key "pv3" then
    some "mdi:solar-power"
  else special

end SensorMetaHelper

namespace UtilsSensorMetaHelper

/-
SensorMetaHelper as defined in utils.py (lines 138-251).  It lowercases
the key once and runs three stages: suffix table, keyword-anywhere
table, and an end-anchored regex fallback.  The regex alternation is
modelled as a suffix table; its alternatives are pairwise exclusive as
suffixes, so the order of the alternation is irrelevant.
-/

/-- Stage 1 suffix table of utils.py `get_unit`. -/
def suffix_mapping : List (String × String) :=
  [("pwr", "W"), ("power", "W"), ("amp", "A"), ("soc", "%"), ("soh", "%"),
   ("vol", "V"), ("watth", "Wh"), ("energy", "Wh"), ("percent", "%"),
   ("volume", "L"), ("temp", "°C"), ("current", "A"), ("voltage", "V")]

/-- Stage 2 keyword table of utils.py `get_unit` (substring anywhere). -/
def keyword_mapping : List (String × String) :=
  [("generation", "kWh"), ("capacity", "Ah"), ("temperature", "°C"),
   ("temp", "°C"), ("power", "W"), ("energy", "Wh"), ("soc", "%"),
   ("soh", "%"), ("voltage", "V"), ("current", "A")]

/-- Stage 3 end-anchored regex alternatives of utils.py `get_unit`. -/
def regex_alternatives : List (String × String) :=
  [("pwr", "W"), ("amp", "A"), ("soc", "%"), ("soh", "%"), ("vol", "V"),
   ("watth", "Wh"), ("energy", "Wh"), ("temp", "°C"), ("temperature", "°C"),
   ("current", "A"), ("voltage", "V")]

/-- utils.py `SensorMetaHelper.get_unit`. -/
def get_unit (key : String) : Option String :=
  let key_lower := py_lower key
  match suffix_mapping.find? (fun p => py_endsWith key_lower p.1) with
  | some p => some p.2
  | none =>
    match keyword_mapping.find? (fun p => p.1.toList <:+: key_lower.toList) with
    | some p => some p.2
    | none =>
      match regex_alternatives.find? (fun p => py_endsWith key_lower p.1) with
      | some p => some p.2
      | none => none

end UtilsSensorMetaHelper

/-- Per-key sensor metadata record (const.py DEFAULT_META / SENSOR_META
entries; a missing dict key is a `none` field). -/
structure Meta where
  unit : Option String
  device_class : Option String
  state_class : Option String
  icon : Option String
  description : Option String

/-- const.py DEFAULT_META power. -/
def metaPower : Meta := ⟨some "W", some "power", some "measurement", none, none⟩

/-- const.py DEFAULT_META energy. -/
def metaEnergy : Meta :=
  ⟨some "kWh", some "energy", some "total_increasing", none, none⟩

/-- const.py DEFAULT_META voltage. -/
def metaVoltage : Meta := ⟨some "V", some "voltage", some "measurement", none, none⟩

/-- const.py DEFAULT_META current. -/
def metaCurrent : Meta := ⟨some "A", some "current", some "measurement", none, none⟩

/-- const.py DEFAULT_META percent. -/
def metaPercent : Meta := ⟨some "%", some "battery", some "measurement", none, none⟩

/-- const.py DEFAULT_META temperature (the unit literal in const.py is
the mojibake byte sequence for the degree sign, kept verbatim). -/
def metaTemperature : Meta :=
  ⟨some "Â°C", some "temperature", some "measurement", none, none⟩

/-- const.py DEFAULT_META boolean. -/
def metaBoolean : Meta := ⟨none, some "running", some "measurement", none, none⟩

/-- const.py DEFAULT_META count. -/
def metaCount : Meta := ⟨none, none, some "measurement", none, none⟩

/-- const.py entries with unit, device class and state class all None. -/
def metaPlain : Meta := ⟨none, none, none, none, none⟩

/-- const.py SENSOR_META table. -/
def SENSOR_META : List (String × Meta) :=
  [("sysLoadPwr", metaPower), ("sysGridPwr", metaPower),
   ("mpptPwr", metaPower), ("bpPwr", metaPower), ("online", metaBoolean),
   ("dcdcPwr", metaPower), ("todayElectricityGeneration", metaEnergy),
   ("monthElectricityGeneration", metaEnergy),
   ("yearElectricityGeneration", metaEnergy),
   ("totalElectricityGeneration", metaEnergy), ("systemName", metaPlain),
   ("pv1Pwr", metaPower), ("pvInvPwr", metaPower), ("pv2Pwr", metaPower),
   ("pv3Pwr", metaPower), ("bpTotalChgEnergy", metaEnergy),
   ("bpTotalDsgEnergy", metaEnergy), ("bpSoc", metaPercent),
   ("bpOnlineSum", metaCount), ("emsCtrlLedBright", metaCount),
   ("mppt1FaultCode", metaCount), ("mppt1WarningCode", metaCount),
   ("mppt2FaultCode", metaCount), ("mppt2WarningCode", metaCount),
   ("bpSoh", ⟨some "%", some "battery", some "measurement",
              some "mdi:battery-heart", none⟩),
   ("bpVol", metaVoltage), ("bpAmp", metaCurrent), ("bpCycles", metaCount),
   ("bpSysState", metaCount), ("bpRemainWatth", metaEnergy),
   ("bmsRunSta", metaCount), ("bpEnvTemp", metaTemperature),
   ("bpMinCellTemp", metaTemperature), ("bpMaxCellTemp", metaTemperature),
   ("emsBpAliveNum", metaCount), ("emsBpPower", metaPower),
   ("pcsActPwr", metaPower), ("pcsMeterPower", metaPower),
   ("evSn", metaPlain), ("workMode", metaPlain),
   ("useGridFirst", metaBoolean), ("evOnoffSet", metaBoolean),
   ("orderStartTimestamp", ⟨none, some "timestamp", some "measurement",
                            none, none⟩),
   ("onlineBits", metaCount), ("errorCode", metaCount),
   ("evUserManual", metaBoolean), ("evChargingEnergy", metaEnergy),
   ("evCurrSet", metaCurrent), ("chargeVehicleId", metaPlain),
   ("chargingStatus", metaPlain), ("evPwr", metaPower),
   ("selfcheckPercent", metaPercent), ("temp", metaTemperature),
   ("targetTemp", metaTemperature), ("runFlag", metaBoolean),
   ("mode", metaPlain), ("heatingPower", metaPower), ("hrSn", metaPlain),
   ("waterTankVolume", ⟨some "L", none, some "measurement", none, none⟩),
   ("runStat", metaCount), ("targetPower", metaPower)]

/-- SENSOR_META.get(key, \x7b\x7d): missing keys give the all-none record. -/
def metaLookup (k : String) : Meta :=
  (dget SENSOR_META k).getD ⟨none, none, none, none, none⟩

/-- PowerOceanEndPoint (ecoflow.py NamedTuple).  The description field is
Option String because the jsonpath extractor can assign None to it. -/
structure PowerOceanEndPoint where
  internal_unique_id : String
  serial : String
  name : String
  friendly_name : String
  value : J
  unit : Option String
  description : Option String
  icon : Option String

/-- The output mapping unique_id to endpoint record. -/
abbrev Sensors := List (String × PowerOceanEndPoint)

/-- One segment of a jsonpath field path: an object key, an array index,
or a wildcard. -/
inductive Seg where
  | key (s : String)
  | idx (n : Nat)
  | wild
deriving Repr, DecidableEq

/-- The children of a value selected by one path segment. -/
def selectSeg (v : J) (seg : Seg) : List J :=
  match v, seg with
  | .obj m, .key s => (dget m s).toList
  | .arr xs, .idx n => (xs.get? n).toList
  | .arr xs, .wild => xs
  | .obj m, .wild => m.map Prod.snd
  | _, _ => []

/-- jsonpath matching: all values reached by the path, in document
(discovery) order, as jsonpath_ng returns them. -/
def jfind : List Seg → J → List J
  | [], v => [v]
  | seg :: ps, v => ((selectSeg v seg).map (jfind ps)).flatten

/-- One sensor entry of a variant schema report (field, label,
per_instance, instance_name with its default bpack, aggregate).  The
structural path is the parsed form of the raw field string. -/
structure SensorCfg where
  field : String
  path : List Seg
  label : Option String
  per_instance : Bool
  instance_name : String
  aggregate : Option String

/-- One report entry of a variant schema (sensors is none when the
report config has no sensors key). -/
structure ReportCfg where
  report : String
  sensors : Option (List SensorCfg)

/-- The field key used in unique ids: dots become underscores and the
wildcard brackets are removed (ecoflow.py line 798). -/
def field_key (field : String) : String :=
  py_replace (py_replace field "." "_") "[*]" ""

/-- The last dot-separated component of a field (ecoflow.py line 805,
split(".")[-1]: everything after the last dot, or the whole field when
it has no dot). -/
def meta_key (field : String) : String :=
  ⟨(field.data.reverse.takeWhile (fun c => c ≠ '.')).reverse⟩

/-- Python numeric coercion used by sum: booleans are integers, any
other non-numeric value raises TypeError. -/
def pyNum : J → Except PyErr Int
  | .num n => .ok n
  | .boolean b => .ok (if b then 1 else 0)
  | _ => .error .typeError

/-- The expression `m.value or 0`: falsy values are replaced by zero. -/
def pyOrZero (v : J) : J := if truthy v then v else J.num 0

/-- The aggregate expression `sum(m.value or 0 for m in matches)`
(ecoflow.py line 784). -/
def sum_or_zero (ms : List J) : Except PyErr Int :=
  ms.foldlM (fun acc v => do
    let k ← pyNum (pyOrZero v)
    pure (acc + k)) 0

/-- The jsonpath base for a report: the document root for the default
data report, else $.quota.REPORT (ecoflow.py line 737). -/
def base_path (report : String) : List Seg :=
  if report = "data" then [] else [.key "quota", .key report]

/-- Lines 774-789 of ecoflow.py for one sensor config: resolve the
matches; no matches means the sensor is skipped (empty value list);
aggregate sum collapses the matches to a single summed value.  A truthy
aggregate other than sum would make Python store the raw match object
as the value; the claims under study never configure such a value and
the match is modelled by its value. -/
def sensor_values (report : String) (dataJ : J) (s : SensorCfg) :
    Except PyErr (List J) :=
  let ms := jfind (base_path report ++ s.path) dataJ
  if ms.isEmpty then .ok []
  else if s.aggregate = some "sum" then do
    let total ← sum_or_zero ms
    pure [J.num total]
  else .ok ms

/-- The loop body of ecoflow.py lines 791-823 for one (index, value)
pair: build the suffix, skip an already present unique id, else build
and assign the endpoint. -/
def emit_sensor_step (sn report : String) (s : SensorCfg) (sensors : Sensors)
    (iv : Nat × J) : Sensors :=
  let suffix := if s.per_instance then
      "_" ++ s.instance_name ++ toString (iv.1 + 1) else ""
  let fk := field_key s.field
  let uid := sn ++ "_" ++ report ++ "_" ++ fk ++ suffix
  if dmem sensors uid then sensors
  else
    let meta := metaLookup (meta_key s.field)
    let name := sn ++ "_" ++ fk ++ suffix
    let friendly := match s.label with
      | some l => if l = "" then fk ++ suffix else l
      | none => fk ++ suffix
    dset sensors uid
      ⟨uid, sn, name, friendly, iv.2, meta.unit, meta.description,
       meta.icon⟩

/-- Lines 788-823 of ecoflow.py: reverse the value list when
per_instance is set, then emit one endpoint per value with a 1-based
instance suffix, skipping unique ids already present in the mapping. -/
def emit_sensor (sn report : String) (s : SensorCfg) (sensors : Sensors)
    (vals : List J) : Sensors :=
  let ordered := if s.per_instance then vals.reverse else vals
  ordered.enum.foldl (emit_sensor_step sn report s) sensors

/-- Processing of one sensor config of one report
(`Ecoflow._extract_sensors_from_jsonpath` inner loop). -/
def process_sensor (sn report : String) (dataJ : J) (sensors : Sensors)
    (s : SensorCfg) : Except PyErr Sensors := do
  let vals ← sensor_values report dataJ s
  pure (emit_sensor sn report s sensors vals)

/-- `Ecoflow._extract_sensors_from_jsonpath` (ecoflow.py lines 726-827):
iterate the report configs and their sensors; reports without a sensors
key and sensors without a field only log and are skipped. -/
def extract_sensors_from_jsonpath (sn : String) (cfg : List ReportCfg)
    (dataJ : J) (sensors : Sensors) : Except PyErr Sensors :=
  cfg.foldlM (fun sensors rc =>
    match rc.sensors with
    | none => pure sensors
    | some ss => ss.foldlM (fun sensors s =>
        if s.field = "" then pure sensors
        else process_sensor sn rc.report dataJ sensors s) sensors) sensors

/-- `Ecoflow._get_sensors` (ecoflow.py lines 471-555), the live
extraction entry point.  If the data entry is missing or not a dict the
call logs an error and returns the empty mapping; otherwise only the
jsonpath extraction runs.  The quota and parallel report dispatch in
the source is commented out, and the report list read from the variant
file on the live path is computed but never used, so it is omitted
here. -/
def get_sensors (sn : String) (cfg : List ReportCfg)
    (response : List (String × J)) : Except PyErr Sensors :=
  match dget response "data" with
  | some (J.obj m) => extract_sensors_from_jsonpath sn cfg (J.obj m) []
  | _ => .ok []

/-- const.py LENGTH_BATTERIE_SN. -/
def LENGTH_BATTERIE_SN : Nat := 12

namespace DeviceRole

/-- DeviceRole.MASTER.value. -/
def MASTER : String := "_master"

/-- DeviceRole.SLAVE.value. -/
def SLAVE : String := "_slave"

/-- DeviceRole.ALL.value. -/
def ALL : String := "_all"

end DeviceRole

/-- Whether a JSON value is a dict (`isinstance(value, dict)`). -/
def isObj : J → Bool
  | .obj _ => true
  | _ => false

/-- `Ecoflow._handle_standard_mode` (ecoflow.py lines 1073-1101): plain
key-value pairs; every selected non-dict field is assigned into the
mapping unconditionally. -/
def handle_standard_mode (sn : String) (d : List (String × J))
    (sensors : Sensors) (report : String) (sens_select : List String)
    (suffix : String) : Sensors :=
  let report_string := if report = "data" then "" else "_" ++ report
  d.foldl (fun sensors kv =>
    let key := kv.1
    if sens_select.contains key && !(isObj kv.2) then
      let uid := sn ++ report_string ++ "_" ++ key
      dset sensors uid
        ⟨uid, sn, sn ++ "_" ++ key ++ suffix, key ++ suffix, kv.2,
         SensorMetaHelper.get_unit key,
         some (SensorMetaHelper.get_description key),
         SensorMetaHelper.get_special_icon key⟩
    else sensors) sensors

/-- Lines 1046-1048 of ecoflow.py: normalize the devSn field of a
parallel energy stream record.  A falsy or too-short serial becomes the
empty string; calling len on a truthy non-string raises TypeError. -/
def devSn_norm (v : Option J) : Except PyErr String :=
  match v with
  | none => .ok ""
  | some (J.str s) => .ok (if s.length < LENGTH_BATTERIE_SN then "" else s)
  | some w => if truthy w then .error .typeError else .ok ""

/-- Lines 1050-1055 of ecoflow.py: the role suffix of a record given its
normalized serial and the installation serial. -/
def role_suffix (ownSn devSn : String) : String :=
  if devSn = ownSn then DeviceRole.MASTER
  else if devSn ≠ "" then DeviceRole.SLAVE
  else DeviceRole.ALL

/-- One record of the paraEnergyStream list (ecoflow.py lines
1045-1070): normalize the serial, compute the role suffix, then emit
one endpoint per field of the record. -/
def emit_parallel_record (ownSn report : String) (sensors : Sensors)
    (rec : List (String × J)) : Except PyErr Sensors := do
  let dsn ← devSn_norm (dget rec "devSn")
  let suffix := role_suffix ownSn dsn
  pure (rec.foldl (fun sensors kv =>
    let key := kv.1
    let uid := dsn ++ "_" ++ report ++ "_paraEnergyStream_" ++ key
    dset sensors uid
      ⟨uid, dsn, dsn ++ "_" ++ key ++ suffix, key ++ suffix, kv.2,
       SensorMetaHelper.get_unit key,
       some (SensorMetaHelper.get_description key),
       SensorMetaHelper.get_special_icon key⟩) sensors)

/-- `Ecoflow._handle_parallel_energy_stream` (ecoflow.py lines
1034-1071).  The suffix parameter of the source is shadowed per record
by the role suffix; a missing paraEnergyStream key leaves the mapping
unchanged; iterating a present non-list value raises. -/
def handle_parallel_energy_stream (ownSn : String) (d : List (String × J))
    (sensors : Sensors) (report : String) : Except PyErr Sensors :=
  match dget d "paraEnergyStream" with
  | none => pure sensors
  | some (J.arr para) => para.foldlM (fun sensors device =>
      match device with
      | J.obj rec => emit_parallel_record ownSn report sensors rec
      | _ => .error .attributeError) sensors
  | some _ => .error .typeError

/-- `Ecoflow._parse_battery_data` (ecoflow.py lines 929-944) under the
pre-decoded document convention: a dict passes through; a remaining
string leaf is a plain non-JSON string, whose json_loads raises and is
re-raised; any other type logs an error and yields no dict (the source
also yields None when an embedded JSON string decodes to a non-dict,
which under the convention appears here as that non-dict value). -/
def parse_battery_data : J → Except PyErr (Option (List (String × J)))
  | .obj m => .ok (some m)
  | .str _ => .error .jsonDecodeError
  | _ => .ok none

/-- `Ecoflow._handle_battery_mode` (ecoflow.py lines 892-927): keys
longer than the battery serial length are battery payloads, numbered in
reverse discovery order with 1-based bpack prefixes. -/
def handle_battery_mode (sn : String) (d : List (String × J))
    (sensors : Sensors) (report : String) (sens_select : List String)
    (suffix : String) : Except PyErr Sensors :=
  let keys := d.map Prod.fst
  let batts := keys.filter (fun s => LENGTH_BATTERIE_SN < s.length)
  (batts.reverse.enum).foldlM (fun sensors ib => do
    let bpname := "bpack" ++ toString (ib.1 + 1) ++ "_"
    let bat := ib.2
    match ← parse_battery_data ((dget d bat).getD J.null) with
    | some d_bat => pure (d_bat.foldl (fun sensors kv =>
        let key := kv.1
        if sens_select.contains key then
          let uid := sn ++ "_" ++ report ++ "_" ++ bat ++ "_" ++ key
          dset sensors uid
            ⟨uid, sn, sn ++ "_" ++ bpname ++ key ++ suffix,
             bpname ++ key ++ suffix, kv.2, SensorMetaHelper.get_unit key,
             some (bpname ++ SensorMetaHelper.get_description key),
             SensorMetaHelper.get_special_icon key⟩
        else sensors) sensors)
    | none => pure sensors) sensors

/-- The fixed phase list of `Ecoflow._handle_ems_heartbeat_mode`. -/
def phase_names : List String := ["pcsAPhase", "pcsBPhase", "pcsCPhase"]

/-- Emission of one phase block (ecoflow.py lines 973-988). -/
def emit_phase (sn report suffix phase : String) (sensors : Sensors)
    (pm : List (String × J)) : Sensors :=
  pm.foldl (fun sensors kv =>
    let key := kv.1
    let nm := phase ++ "_" ++ key
    let uid := sn ++ "_" ++ report ++ "_" ++ nm
    dset sensors uid
      ⟨uid, sn, sn ++ "_" ++ nm ++ suffix, nm ++ suffix, kv.2,
       SensorMetaHelper.get_unit key,
       some (SensorMetaHelper.get_description key), none⟩) sensors

/-- One round of the phase loop (ecoflow.py lines 973-988): index the
phase block, raising KeyError when absent, then emit its fields. -/
def phase_step (sn report suffix : String) (d : List (String × J))
    (sensors : Sensors) (phase : String) : Except PyErr Sensors :=
  match dget d phase with
  | none => .error .keyError
  | some (J.obj pm) => pure (emit_phase sn report suffix phase sensors pm)
  | some _ => .error .attributeError

/-- One round of the scalar loop of the EMS heartbeat handler
(ecoflow.py lines 955-969). -/
def ems_scalar_step (sn report suffix : String) (sens_select : List String)
    (sensors : Sensors) (kv : String × J) : Sensors :=
  let key := kv.1
  if sens_select.contains key then
    let uid := sn ++ "_" ++ report ++ "_" ++ key
    dset sensors uid
      ⟨uid, sn, sn ++ "_" ++ key ++ suffix, key ++ suffix, kv.2,
       SensorMetaHelper.get_unit key,
       some (SensorMetaHelper.get_description key), none⟩
  else sensors

/-- One round of the per-string mpptPv loop (ecoflow.py lines 992-1013)
for the (index, string object) pair. -/
def emit_mppt_string (sn report suffix : String) (sensors : Sensors)
    (is : Nat × J) : Except PyErr Sensors :=
  match is.2 with
  | J.obj sm => pure (sm.foldl (fun sensors kv =>
      let key := kv.1
      let uid := sn ++ "_" ++ report ++ "_mpptHeartBeat_mpptPv" ++
        toString (is.1 + 1) ++ "_" ++ key
      let special_icon :=
        if py_endsWith key "amp" then some "mdi:current-dc"
        else if py_endsWith key "pwr" then some "mdi:solar-power"
        else none
      dset sensors uid
        ⟨uid, sn,
         sn ++ "_mpptPv" ++ toString (is.1 + 1) ++ "_" ++ key ++ suffix,
         "mpptPv" ++ toString (is.1 + 1) ++ "_" ++ key ++ suffix,
         kv.2, SensorMetaHelper.get_unit key,
         some (SensorMetaHelper.get_description key),
         special_icon⟩) sensors)
  | _ => .error .attributeError

/-- One addend of the total power sum (ecoflow.py lines 1015-1018):
the pwr field of one string object, defaulting to zero. -/
def mppt_pwr_add (acc : Int) (sJ : J) : Except PyErr Int :=
  match sJ with
  | J.obj sm => do
      let k ← pyNum ((dget sm "pwr").getD (J.num 0))
      pure (acc + k)
  | _ => .error .attributeError

/-- `Ecoflow._handle_ems_heartbeat_mode` (ecoflow.py lines 946-1032):
selected flat scalars; then, if pcsBPhase is present, all three phase
blocks are indexed unconditionally (a missing one raises KeyError);
then the per-string mpptPv array and the synthetic summed total power
endpoint. -/
def handle_ems_heartbeat_mode (sn : String) (d : List (String × J))
    (sensors : Sensors) (report : String) (sens_select : List String)
    (suffix : String) : Except PyErr Sensors := do
  let sensors := d.foldl (ems_scalar_step sn report suffix sens_select) sensors
  let sensors ← if dmem d "pcsBPhase" then
      phase_names.foldlM (phase_step sn report suffix d) sensors
    else pure sensors
  if dmem d "mpptHeartBeat" then
    match dget d "mpptHeartBeat" with
    | some (J.arr (J.obj fm :: _)) =>
      match dget fm "mpptPv" with
      | some (J.arr strs) => do
          let sensors ← strs.enum.foldlM (emit_mppt_string sn report suffix) sensors
          let total ← strs.foldlM mppt_pwr_add (0 : Int)
          let uid := sn ++ "_" ++ report ++ "_mpptHeartBeat_mpptPv_pwrTotal"
          pure (dset sensors uid
            ⟨uid, sn, sn ++ "_mpptPv_pwrTotal" ++ suffix,
             "mpptPv_pwrTotal" ++ suffix, J.num total, some "W",
             some "Solarertrag aller Strings", some "mdi:solar-power"⟩)
      | none => .error .keyError
      | some _ => .error .typeError
    | some (J.arr []) => .error .indexError
    | some (J.arr (_ :: _)) => .error .typeError
    | some _ => .error .typeError
    | none => .error .keyError
  else pure sensors

/-- `Ecoflow._extract_sensors_from_report_org` (ecoflow.py lines
837-890).  When the configured report key is absent, report_to_log is
assigned and every JTS1_ occurrence in the key is rewritten to RE307_;
when the resolved value is missing or falsy the debug log references
report_to_log, which is unbound if no rewrite happened.  A truthy
non-dict report body makes the dict-style handlers raise; the claims
under study only exercise dict bodies. -/
def extract_sensors_from_report_org (sn : String)
    (datapoints : List (String × List String)) (response : List (String × J))
    (sensors : Sensors) (report : String) (suffix : String)
    (battery_mode ems_heartbeat_mode parallel_energy_stream_mode : Bool) :
    Except PyErr Sensors :=
  let st := if dmem response report then (report, (none : Option String))
            else (py_replace report "JTS1_" "RE307_", some report)
  let rep := st.1
  let report_to_log := st.2
  match dget response rep with
  | some d =>
    if truthy d then
      let sens_select := (dget datapoints rep).getD []
      match d with
      | J.obj fields =>
        if battery_mode then
          handle_battery_mode sn fields sensors rep sens_select suffix
        else if ems_heartbeat_mode then
          handle_ems_heartbeat_mode sn fields sensors rep sens_select suffix
        else if parallel_energy_stream_mode then
          handle_parallel_energy_stream sn fields sensors rep
        else
          pure (handle_standard_mode sn fields sensors rep sens_select suffix)
      | _ => .error .attributeError
    else
      match report_to_log with
      | some _ => pure sensors
      | none => .error .unboundLocalError
  | none =>
    match report_to_log with
    | some _ => pure sensors
    | none => .error .unboundLocalError

/-- The energy stream report name, utils.py ReportMode.ENERGY_STREAM,
as a character list. -/
def ENERGY_STREAM : List Char := "ENERGY_STREAM_REPORT".toList

/-- Modelled from the spec: `Ecoflow._is_matching_report` is absent from
src (only the unit tests in tests/unit/test_matching_report.py call
it); this helper realizes the stripping of a single leading prefix
segment ending in an underscore, per spec section 4.2: it returns the
remainder of the key after the first underscore, or none when the key
has no underscore. -/
def strip_first_segment : List Char → Option (List Char)
  | [] => none
  | c :: cs => if c = '_' then some cs else strip_first_segment cs

/-- Modelled from the spec: `Ecoflow._is_matching_report` is absent from
src.  Spec section 4.2: a candidate key matches a target report name if
it equals the target exactly, or it ends with the exact target suffix
after stripping a single leading prefix segment — except for the energy
stream report, whose matching is exact-suffix-after-first-underscore. -/
def is_matching_report (candidate target : List Char) : Bool :=
  if candidate = target then true
  else
    match strip_first_segment candidate with
    | none => false
    | some rest =>
      if target = ENERGY_STREAM then decide (rest = target)
      else target.isSuffixOf rest

/-
General lemmas about the Python dict model.
-/

/-- Assignment followed by lookup of the same key yields the assigned
value. -/
theorem dget_dset_self {α : Type} (m : List (String × α)) (k : String) (v : α) :
    dget (dset m k v) k = some v := by
  induction m with
  | nil => simp [dget, dset]
  | cons p rest ih =>
    obtain ⟨k', v'⟩ := p
    by_cases h : k' = k
    · simp [dset, h, dget]
    · simp [dset, h, dget, ih]

/-- Assignment does not change the binding of a different key. -/
theorem dget_dset_ne {α : Type} (m : List (String × α)) (k k' : String) (v : α)
    (h : k ≠ k') : dget (dset m k v) k' = dget m k' := by
  induction m with
  | nil => simp [dget, dset, h]
  | cons p rest ih =>
    obtain ⟨k₀, v₀⟩ := p
    by_cases h₀ : k₀ = k
    · subst h₀; simp [dset, dget, h]
    · simp [dset, h₀, dget, ih]

/-- A fresh assignment appends one binding. -/
theorem dset_length_fresh {α : Type} (m : List (String × α)) (k : String)
    (v : α) (h : dmem m k = false) : (dset m k v).length = m.length + 1 := by
  induction m with
  | nil => simp [dset]
  | cons p rest ih =>
    obtain ⟨k₀, v₀⟩ := p
    by_cases h₀ : k₀ = k
    · simp [dmem, dget, h₀] at h
    · simp only [dmem, dget, h₀, if_false] at h
      simp [dset, h₀, ih h, dmem]

/-- An assignment guarded by a membership check never changes a key
that is already bound. -/
theorem dget_guarded_dset {α : Type} (m : List (String × α)) (k uid : String)
    (v : α) (hmem : dmem m k = true) :
    dget (if dmem m uid then m else dset m uid v) k = dget m k := by
  by_cases h : dmem m uid = true
  · simp [h]
  · have hne : uid ≠ k := by
      intro he
      subst he
      exact h hmem
    simp only [h, if_false, Bool.false_eq_true]
    exact dget_dset_ne m uid k v hne

/-- One jsonpath emission step never changes a key that is already
bound. -/
theorem emit_sensor_step_preserve (sn report : String) (s : SensorCfg)
    (sensors : Sensors) (k : String) (hmem : dmem sensors k = true)
    (iv : Nat × J) :
    dget (emit_sensor_step sn report s sensors iv) k = dget sensors k := by
  simp only [emit_sensor_step]
  exact dget_guarded_dset _ _ _ _ hmem

/-- The jsonpath emission loop never changes a key that is already
bound. -/
theorem foldl_emit_preserve (sn report : String) (s : SensorCfg) :
    ∀ (l : List (Nat × J)) (sensors : Sensors) (k : String),
      dmem sensors k = true →
      dget (l.foldl (emit_sensor_step sn report s) sensors) k = dget sensors k := by
  intro l
  induction l with
  | nil => intro sensors k _; simp
  | cons iv t ih =>
    intro sensors k h
    rw [List.foldl_cons]
    have h1 := emit_sensor_step_preserve sn report s sensors k h iv
    have h2 : dmem (emit_sensor_step sn report s sensors iv) k = true := by
      show (dget (emit_sensor_step sn report s sensors iv) k).isSome = true
      rw [h1]
      exact h
    rw [ih _ _ h2, h1]

/-- emit_sensor never changes a key that is already bound. -/
theorem emit_sensor_preserve (sn report : String) (s : SensorCfg) (vals : List J)
    (sensors : Sensors) (k : String) (hmem : dmem sensors k = true) :
    dget (emit_sensor sn report s sensors vals) k = dget sensors k := by
  simp only [emit_sensor]
  exact foldl_emit_preserve sn report s _ sensors k hmem

/-- process_sensor never changes a key that is already bound. -/
theorem process_sensor_preserve (sn report : String) (dataJ : J) (s : SensorCfg)
    (sensors out : Sensors) (k : String) (hmem : dmem sensors k = true)
    (h : process_sensor sn report dataJ sensors s = .ok out) :
    dget out k = dget sensors k := by
  unfold process_sensor at h
  cases hv : sensor_values report dataJ s with
  | error e =>
    rw [hv] at h
    simp only [Bind.bind, Except.bind] at h
    cases h
  | ok vals =>
    rw [hv] at h
    simp only [Bind.bind, Except.bind, pure, Except.pure, Except.ok.injEq] at h
    rw [← h]
    exact emit_sensor_preserve sn report s vals sensors k hmem

/-- The per-report sensor loop never changes a key that is already
bound. -/
theorem sensor_list_preserve (sn report : String) (dataJ : J) :
    ∀ (ss : List SensorCfg) (sensors out : Sensors) (k : String),
      dmem sensors k = true →
      ss.foldlM (fun sensors s =>
          if s.field = "" then pure sensors
          else process_sensor sn report dataJ sensors s) sensors = .ok out →
      dget out k = dget sensors k := by
  intro ss
  induction ss with
  | nil =>
    intro sensors out k _ h
    simp only [List.foldlM_nil, pure, Except.pure, Except.ok.injEq] at h
    rw [← h]
  | cons s t ih =>
    intro sensors out k hm h
    rw [List.foldlM_cons] at h
    by_cases hf : s.field = ""
    · rw [if_pos hf] at h
      simp only [pure, Bind.bind, Except.bind, Except.pure] at h
      exact ih sensors out k hm h
    · rw [if_neg hf] at h
      cases hp : process_sensor sn report dataJ sensors s with
      | error e =>
        rw [hp] at h
        simp only [Bind.bind, Except.bind] at h
        cases h
      | ok s1 =>
        rw [hp] at h
        simp only [Bind.bind, Except.bind] at h
        have e1 := process_sensor_preserve sn report dataJ s sensors s1 k hm hp
        have hm1 : dmem s1 k = true := by
          show (dget s1 k).isSome = true
          rw [e1]
          exact hm
        rw [ih s1 out k hm1 h, e1]

/-- The full jsonpath extraction never changes a key that is already
bound: the first write wins. -/
theorem extract_jsonpath_preserve_aux (sn : String) (dataJ : J) :
    ∀ (cfg : List ReportCfg) (sensors out : Sensors) (k : String),
      dmem sensors k = true →
      extract_sensors_from_jsonpath sn cfg dataJ sensors = .ok out →
      dget out k = dget sensors k := by
  intro cfg
  induction cfg with
  | nil =>
    intro sensors out k _ h
    unfold extract_sensors_from_jsonpath at h
    simp only [List.foldlM_nil, pure, Except.pure, Except.ok.injEq] at h
    rw [← h]
  | cons rc t ih =>
    intro sensors out k hm h
    unfold extract_sensors_from_jsonpath at h ih
    rw [List.foldlM_cons] at h
    cases hrc : rc.sensors with
    | none =>
      rw [hrc] at h
      simp only [pure, Bind.bind, Except.bind, Except.pure] at h
      exact ih sensors out k hm h
    | some ss =>
      rw [hrc] at h
      dsimp only at h
      cases hs : ss.foldlM (fun sensors s =>
          if s.field = "" then pure sensors
          else process_sensor sn rc.report dataJ sensors s) sensors with
      | error e =>
        rw [hs] at h
        simp only [Bind.bind, Except.bind] at h
        cases h
      | ok s1 =>
        rw [hs] at h
        simp only [Bind.bind, Except.bind] at h
        have e1 := sensor_list_preserve sn rc.report dataJ ss sensors s1 k hm hs
        have hm1 : dmem s1 k = true := by
          show (dget s1 k).isSome = true
          rw [e1]
          exact hm
        rw [ih s1 out k hm1 h, e1]

/-- Left cancellation for string append. -/
theorem string_append_right_inj (a b c : String) (h : a ++ b = a ++ c) :
    b = c := by
  have h2 : a.data ++ b.data = a.data ++ c.data := by
    rw [← String.data_append, ← String.data_append, h]
  exact String.ext (List.append_cancel_left h2)

/-- Strings that differ in their final component differ. -/
theorem append_append_ne (X Y a b : String) (h : a ≠ b) :
    X ++ (Y ++ a) ≠ X ++ (Y ++ b) := by
  intro he
  exact h (string_append_right_inj Y a b (string_append_right_inj X _ _ he))

/-- strip_first_segment returns exactly the remainder after the first
underscore: the dropped part is the unique underscore-free leading
segment. -/
theorem strip_first_segment_eq_some (c rest : List Char) :
    strip_first_segment c = some rest ↔
      ∃ pre, c = pre ++ '_' :: rest ∧ '_' ∉ pre := by
  induction c with
  | nil =>
    constructor
    · intro h
      simp [strip_first_segment] at h
    · rintro ⟨pre, hc, -⟩
      exact absurd hc.symm (by simp)
  | cons a cs ih =>
    by_cases ha : a = '_'
    · subst ha
      constructor
      · intro h
        simp [strip_first_segment] at h
        exact ⟨[], by rw [h]; simp, by simp⟩
      · rintro ⟨pre, hc, hn⟩
        cases pre with
        | nil =>
          simp only [List.nil_append, List.cons.injEq] at hc
          simp [strip_first_segment, hc.2]
        | cons x pre =>
          simp only [List.cons_append, List.cons.injEq] at hc
          refine absurd ?_ hn
          rw [hc.1]
          exact List.mem_cons_self x pre
    · constructor
      · intro h
        simp only [strip_first_segment, if_neg ha] at h
        obtain ⟨pre, hc, hn⟩ := ih.mp h
        refine ⟨a :: pre, by rw [hc]; rfl, ?_⟩
        intro hmem
        rcases List.mem_cons.mp hmem with h1 | h2
        · exact ha h1.symm
        · exact hn h2
      · rintro ⟨pre, hc, hn⟩
        cases pre with
        | nil =>
          simp only [List.nil_append, List.cons.injEq] at hc
          exact absurd hc.1 ha
        | cons x pre =>
          simp only [List.cons_append, List.cons.injEq] at hc
          have hn2 : '_' ∉ pre := fun hm => hn (List.mem_cons_of_mem x hm)
          have hres := ih.mpr ⟨pre, hc.2, hn2⟩
          simp only [strip_first_segment, if_neg ha]
          exact hres

/-- C5: a candidate report key matches a target report name iff it
equals the target exactly, or it ends with the exact target suffix
after stripping the single leading underscore-terminated prefix
segment, where for the energy stream report only an exact remainder
after the first underscore matches; in particular the four matching
cases of tests/unit/test_matching_report.py hold, including that
RE307_EMS_PV_INV_ENERGY_STREAM_REPORT does not match
ENERGY_STREAM_REPORT. -/
theorem is_matching_report_spec :
    (∀ c t : List Char, is_matching_report c t = true ↔
       (c = t ∨ ∃ pre rest, c = pre ++ '_' :: rest ∧ '_' ∉ pre ∧
         (if t = ENERGY_STREAM then rest = t else t <:+ rest))) ∧
    is_matching_report "RE307_ENERGY_STREAM_REPORT".toList ENERGY_STREAM = true ∧
    is_matching_report "JTS1_ENERGY_STREAM_REPORT".toList ENERGY_STREAM = true ∧
    is_matching_report "RE307_EMS_PV_INV_ENERGY_STREAM_REPORT".toList
      ENERGY_STREAM = false ∧
    is_matching_report "ABC_BATTERY_REPORT".toList "BATTERY_REPORT".toList
      = true := by
  refine ⟨?_, by decide, by decide, by decide, by decide⟩
  intro c t
  unfold is_matching_report
  by_cases hct : c = t
  · simp [hct]
  · rw [if_neg hct]
    cases hs : strip_first_segment c with
    | none =>
      simp only [Bool.false_eq_true, false_iff]
      rintro (h | ⟨pre, rest, hc, hn, -⟩)
      · exact hct h
      · have hsome : strip_first_segment c = some rest :=
          (strip_first_segment_eq_some c rest).mpr ⟨pre, hc, hn⟩
        rw [hs] at hsome
        cases hsome
    | some rest =>
      dsimp only
      obtain ⟨pre, hc, hn⟩ := (strip_first_segment_eq_some c rest).mp hs
      by_cases ht : t = ENERGY_STREAM
      · rw [if_pos ht]
        constructor
        · intro h
          exact Or.inr ⟨pre, rest, hc, hn,
            by rw [if_pos ht]; exact of_decide_eq_true h⟩
        · rintro (h | ⟨pre2, rest2, hc2, hn2, hcond⟩)
          · exact absurd h hct
          · have hsome : strip_first_segment c = some rest2 :=
              (strip_first_segment_eq_some c rest2).mpr ⟨pre2, hc2, hn2⟩
            rw [hs, Option.some.injEq] at hsome
            rw [if_pos ht] at hcond
            exact decide_eq_true (by rw [hsome]; exact hcond)
      · rw [if_neg ht]
        constructor
        · intro h
          exact Or.inr ⟨pre, rest, hc, hn,
            by rw [if_neg ht]; exact List.isSuffixOf_iff_suffix.mp h⟩
        · rintro (h | ⟨pre2, rest2, hc2, hn2, hcond⟩)
          · exact absurd h hct
          · have hsome : strip_first_segment c = some rest2 :=
              (strip_first_segment_eq_some c rest2).mpr ⟨pre2, hc2, hn2⟩
            rw [hs, Option.some.injEq] at hsome
            rw [if_neg ht] at hcond
            exact List.isSuffixOf_iff_suffix.mpr (by rw [hsome]; exact hcond)

/-- Witness for the report matching characterization at a concrete
candidate and target. -/
theorem is_matching_report_spec_witness :
    "ABC_BATTERY_REPORT".toList = "ABC_BATTERY_REPORT".toList ∧
    ("ABC_BATTERY_REPORT".toList = "BATTERY_REPORT".toList ∨
      ∃ pre rest, "ABC_BATTERY_REPORT".toList = pre ++ '_' :: rest ∧
        '_' ∉ pre ∧
        (if "BATTERY_REPORT".toList = ENERGY_STREAM then
          rest = "BATTERY_REPORT".toList
         else "BATTERY_REPORT".toList <:+ rest)) :=
  ⟨rfl, (is_matching_report_spec.1 "ABC_BATTERY_REPORT".toList
      "BATTERY_REPORT".toList).mp (by decide)⟩

/-- C3 (code bug evidence): dispatching a configured report key that is
present in the sub-tree but whose value is empty raises
UnboundLocalError — the debug log references report_to_log, which is
assigned only on the renamed-key path — while a missing report key is
skipped and returns the mapping unchanged. -/
theorem report_org_empty_report_raises :
    extract_sensors_from_report_org "SN" [] [("JTS1_FOO", J.obj [])] []
      "JTS1_FOO" "" false false false = .error .unboundLocalError ∧
    extract_sensors_from_report_org "SN" [] [] [] "JTS1_FOO" "" false false
      false = .ok [] := by
  constructor
  · rfl
  · simp [extract_sensors_from_report_org, dmem, dget, pure, Except.pure]

/-- C8: determinism — two extraction calls on the same document and
schema yield identical output mappings, key for key and value for
value. -/
theorem get_sensors_deterministic (sn : String) (cfg : List ReportCfg)
    (r1 r2 : List (String × J)) (h : r1 = r2) :
    get_sensors sn cfg r1 = get_sensors sn cfg r2 := by rw [h]

/-- Witness for determinism at a concrete document. -/
theorem get_sensors_deterministic_witness :
    ([("data", J.obj [("sysLoadPwr", J.num 5)])] : List (String × J)) =
      [("data", J.obj [("sysLoadPwr", J.num 5)])] ∧
    get_sensors "SN" [] [("data", J.obj [("sysLoadPwr", J.num 5)])] =
      get_sensors "SN" [] [("data", J.obj [("sysLoadPwr", J.num 5)])] :=
  ⟨rfl, get_sensors_deterministic "SN" [] _ _ rfl⟩

/-- C1 (counterexample): a document whose data block carries neither a
quota nor a parallel key does not abort the extraction — the call
returns normally with a nonempty mapping. -/
theorem unknown_topology_emits_output :
    get_sensors "SN"
      [⟨"data", some [⟨"sysLoadPwr", [Seg.key "sysLoadPwr"], none, false,
        "bpack", none⟩]⟩]
      [("data", J.obj [("sysLoadPwr", J.num 5)])] =
      .ok [("SN_data_sysLoadPwr",
        ⟨"SN_data_sysLoadPwr", "SN", "SN_sysLoadPwr", "sysLoadPwr", J.num 5,
         some "W", none, none⟩)] ∧
    (Except.ok ([("SN_data_sysLoadPwr",
        ⟨"SN_data_sysLoadPwr", "SN", "SN_sysLoadPwr", "sysLoadPwr", J.num 5,
         some "W", none, none⟩)]) : Except PyErr Sensors) ≠ .ok [] := by
  constructor
  · rfl
  · simp

/-- C1 (amended): a missing or non-dict data block makes the call
return the empty mapping without signaling an error, and when the data
block is a dict the jsonpath extraction proceeds on it regardless of
the presence or absence of quota or parallel keys. -/
theorem get_sensors_invalid_data_amended (sn : String) (cfg : List ReportCfg)
    (response : List (String × J)) :
    ((∀ m, dget response "data" ≠ some (J.obj m)) →
      get_sensors sn cfg response = .ok []) ∧
    (∀ m, dget response "data" = some (J.obj m) →
      get_sensors sn cfg response =
        extract_sensors_from_jsonpath sn cfg (J.obj m) []) := by
  constructor
  · intro h
    unfold get_sensors
    cases hd : dget response "data" with
    | none => rfl
    | some v =>
      cases v with
      | obj m => exact absurd hd (h m)
      | null => rfl
      | boolean b => rfl
      | num n => rfl
      | str s => rfl
      | arr xs => rfl
  · intro m hm
    unfold get_sensors
    rw [hm]

/-- Witness for the amended C1 statement at concrete documents. -/
theorem get_sensors_invalid_data_amended_witness :
    (∀ m, dget ([] : List (String × J)) "data" ≠ some (J.obj m)) ∧
    get_sensors "SN" [] ([] : List (String × J)) = .ok [] ∧
    dget [("data", J.obj [])] "data" = some (J.obj []) ∧
    get_sensors "SN" [] [("data", J.obj [])] =
      extract_sensors_from_jsonpath "SN" [] (J.obj []) [] :=
  ⟨fun m => by simp [dget],
   (get_sensors_invalid_data_amended "SN" [] []).1 (fun m => by simp [dget]),
   rfl,
   (get_sensors_invalid_data_amended "SN" [] _).2 [] rfl⟩

/-- C2 (counterexample): the standard-mode handler overwrites an
existing unique id — the later value 2 replaces the earlier value 1
instead of being dropped. -/
theorem standard_mode_overwrites :
    (dget (handle_standard_mode "SN" [("k", J.num 2)]
        [("SN_R_k", ⟨"SN_R_k", "SN", "n", "f", J.num 1, none, none, none⟩)]
        "R" ["k"] "") "SN_R_k").map PowerOceanEndPoint.value
      = some (J.num 2) ∧
    (some (J.num 2) : Option J) ≠ some (J.num 1) := by
  constructor
  · rfl
  · simp

/-- C2 (amended): within the jsonpath extraction step — the only
extraction step invoked on the live get_sensors path — first-write-wins
holds: a unique id already present in the mapping keeps its original
endpoint record through the whole extraction. -/
theorem jsonpath_first_write_wins (sn : String) (cfg : List ReportCfg)
    (dataJ : J) (sensors out : Sensors) (k : String)
    (hmem : dmem sensors k = true)
    (h : extract_sensors_from_jsonpath sn cfg dataJ sensors = .ok out) :
    dget out k = dget sensors k :=
  extract_jsonpath_preserve_aux sn dataJ cfg sensors out k hmem h

/-- Witness for first-write-wins: a prefilled id whose value 1 survives
an extraction that would re-emit it with value 5. -/
theorem jsonpath_first_write_wins_witness :
    dmem [("SN_data_sysLoadPwr",
        (⟨"SN_data_sysLoadPwr", "SN", "old", "old", J.num 1, none, none,
          none⟩ : PowerOceanEndPoint))] "SN_data_sysLoadPwr" = true ∧
    extract_sensors_from_jsonpath "SN"
      [⟨"data", some [⟨"sysLoadPwr", [Seg.key "sysLoadPwr"], none, false,
        "bpack", none⟩]⟩]
      (J.obj [("sysLoadPwr", J.num 5)])
      [("SN_data_sysLoadPwr",
        ⟨"SN_data_sysLoadPwr", "SN", "old", "old", J.num 1, none, none,
         none⟩)] =
      .ok [("SN_data_sysLoadPwr",
        ⟨"SN_data_sysLoadPwr", "SN", "old", "old", J.num 1, none, none,
         none⟩)] ∧
    dget [("SN_data_sysLoadPwr",
        (⟨"SN_data_sysLoadPwr", "SN", "old", "old", J.num 1, none, none,
          none⟩ : PowerOceanEndPoint))] "SN_data_sysLoadPwr" =
      dget [("SN_data_sysLoadPwr",
        (⟨"SN_data_sysLoadPwr", "SN", "old", "old", J.num 1, none, none,
          none⟩ : PowerOceanEndPoint))] "SN_data_sysLoadPwr" :=
  ⟨rfl, rfl,
   jsonpath_first_write_wins "SN"
     [⟨"data", some [⟨"sysLoadPwr", [Seg.key "sysLoadPwr"], none, false,
       "bpack", none⟩]⟩]
     (J.obj [("sysLoadPwr", J.num 5)]) _ _ "SN_data_sysLoadPwr" rfl rfl⟩

/-- C6: parallel energy stream role tagging — a record whose serial
equals the installation serial is tagged master, a present plausible
but different serial is tagged slave, and an absent or too-short serial
is treated as empty and tagged all; stated for an installation serial
of at least the battery serial length. -/
theorem parallel_role_tagging (ownSn : String)
    (h : LENGTH_BATTERIE_SN ≤ ownSn.length) :
    (∀ rec : List (String × J), dget rec "devSn" = some (J.str ownSn) →
      (devSn_norm (dget rec "devSn")).map (role_suffix ownSn)
        = .ok DeviceRole.MASTER) ∧
    (∀ (rec : List (String × J)) (s : String),
      dget rec "devSn" = some (J.str s) → LENGTH_BATTERIE_SN ≤ s.length →
      s ≠ ownSn →
      (devSn_norm (dget rec "devSn")).map (role_suffix ownSn)
        = .ok DeviceRole.SLAVE) ∧
    (∀ (rec : List (String × J)) (s : String),
      dget rec "devSn" = some (J.str s) → s.length < LENGTH_BATTERIE_SN →
      devSn_norm (dget rec "devSn") = .ok "" ∧
      (devSn_norm (dget rec "devSn")).map (role_suffix ownSn)
        = .ok DeviceRole.ALL) ∧
    (∀ rec : List (String × J), dget rec "devSn" = none →
      (devSn_norm (dget rec "devSn")).map (role_suffix ownSn)
        = .ok DeviceRole.ALL) := by
  have hzero : ("" : String).length = 0 := rfl
  have hown : ("" : String) ≠ ownSn := by
    intro he
    rw [← he, hzero] at h
    simp [LENGTH_BATTERIE_SN] at h
  refine ⟨?_, ?_, ?_, ?_⟩
  · intro rec hr
    rw [hr]
    have hlen : ¬ ownSn.length < LENGTH_BATTERIE_SN := by omega
    simp [devSn_norm, if_neg hlen, Except.map, role_suffix]
  · intro rec s hr hslen hne
    rw [hr]
    have hlen : ¬ s.length < LENGTH_BATTERIE_SN := by omega
    have hse : s ≠ "" := by
      intro he
      rw [he, hzero] at hslen
      simp [LENGTH_BATTERIE_SN] at hslen
    simp [devSn_norm, if_neg hlen, Except.map, role_suffix, hne, hse]
  · intro rec s hr hlen
    rw [hr]
    constructor
    · simp [devSn_norm, if_pos hlen]
    · simp [devSn_norm, if_pos hlen, Except.map, role_suffix, hown]
  · intro rec hr
    rw [hr]
    simp [devSn_norm, Except.map, role_suffix, hown]

/-- Witness for the role tagging at concrete serials of the required
length. -/
theorem parallel_role_tagging_witness :
    LENGTH_BATTERIE_SN ≤ ("SN1234567890" : String).length ∧
    (devSn_norm (dget [("devSn", J.str "SN1234567890")] "devSn")).map
      (role_suffix "SN1234567890") = .ok DeviceRole.MASTER ∧
    (devSn_norm (dget [("devSn", J.str "XY1234567890ABC")] "devSn")).map
      (role_suffix "SN1234567890") = .ok DeviceRole.SLAVE ∧
    (devSn_norm (dget [("devSn", J.str "AB")] "devSn")).map
      (role_suffix "SN1234567890") = .ok DeviceRole.ALL ∧
    (devSn_norm (dget ([] : List (String × J)) "devSn")).map
      (role_suffix "SN1234567890") = .ok DeviceRole.ALL := by
  refine ⟨by decide, ?_, ?_, ?_, ?_⟩
  · exact (parallel_role_tagging "SN1234567890" (by decide)).1 _ rfl
  · exact (parallel_role_tagging "SN1234567890" (by decide)).2.1 _
      "XY1234567890ABC" rfl (by decide) (by decide)
  · exact ((parallel_role_tagging "SN1234567890" (by decide)).2.2.1
      [("devSn", J.str "AB")] "AB" rfl (by decide)).2
  · exact (parallel_role_tagging "SN1234567890" (by decide)).2.2.2 _ rfl

/-- C10: EMS heartbeat phase expansion is gated solely on pcsBPhase —
when pcsBPhase is present all three phase blocks are indexed
unconditionally, so a missing pcsAPhase (or pcsCPhase) raises KeyError
instead of skipping; when pcsBPhase is absent the phase block is
skipped entirely even if pcsAPhase is present. -/
theorem ems_phase_gate :
    (∀ (sn report suffix : String) (sens_select : List String)
       (d : List (String × J)) (sensors : Sensors),
      dmem d "pcsBPhase" = true → dmem d "pcsAPhase" = false →
      handle_ems_heartbeat_mode sn d sensors report sens_select suffix
        = .error .keyError) ∧
    (∀ (sn report suffix : String) (a b : List (String × J))
       (sensors : Sensors),
      handle_ems_heartbeat_mode sn
        [("pcsAPhase", J.obj a), ("pcsBPhase", J.obj b)] sensors report []
        suffix = .error .keyError) ∧
    (∀ (sn report suffix : String) (v : J) (sensors : Sensors),
      handle_ems_heartbeat_mode sn [("pcsAPhase", v)] sensors report []
        suffix = .ok sensors) := by
  have hAB : "pcsAPhase" ≠ "pcsBPhase" := by decide
  have hAC : "pcsAPhase" ≠ "pcsCPhase" := by decide
  have hBC : "pcsBPhase" ≠ "pcsCPhase" := by decide
  have hAM : "pcsAPhase" ≠ "mpptHeartBeat" := by decide
  have hBM : "pcsBPhase" ≠ "mpptHeartBeat" := by decide
  refine ⟨?_, ?_, ?_⟩
  · intro sn report suffix sens_select d sensors hB hA
    have hAn : dget d "pcsAPhase" = none := by
      cases hd : dget d "pcsAPhase" with
      | none => rfl
      | some v =>
        unfold dmem at hA
        rw [hd] at hA
        simp at hA
    unfold handle_ems_heartbeat_mode
    rw [hB]
    simp [phase_names, phase_step, hAn, Bind.bind, Except.bind]
  · intro sn report suffix a b sensors
    unfold handle_ems_heartbeat_mode
    simp [dmem, dget, hAB, hAC, hBC, phase_names, phase_step, Bind.bind,
      Except.bind, pure, Except.pure, ems_scalar_step]
  · intro sn report suffix v sensors
    unfold handle_ems_heartbeat_mode
    simp [dmem, dget, hAB, hAM, phase_names, phase_step, Bind.bind,
      Except.bind, pure, Except.pure, ems_scalar_step]

/-- Witness for the phase gate at a concrete heartbeat block that has
pcsBPhase but no pcsAPhase. -/
theorem ems_phase_gate_witness :
    dmem [("pcsBPhase", J.obj [])] "pcsBPhase" = true ∧
    dmem [("pcsBPhase", J.obj [])] "pcsAPhase" = false ∧
    handle_ems_heartbeat_mode "SN" [("pcsBPhase", J.obj [])] [] "R" [] ""
      = .error .keyError :=
  ⟨rfl, rfl, ems_phase_gate.1 "SN" "R" "" [] [("pcsBPhase", J.obj [])] []
    rfl rfl⟩

/-- C9 (counterexample): the unit inference does not send every key
containing the keyword generation to kWh — a trailing unit suffix takes
precedence in both helper variants, and the extractor helper keyword
test is case-sensitive, so an all-lowercase generation yields no
unit. -/
theorem generation_unit_counterexample :
    SensorMetaHelper.get_unit "generationpwr" = some "W" ∧
    UtilsSensorMetaHelper.get_unit "generationpwr" = some "W" ∧
    (some "W" : Option String) ≠ some "kWh" ∧
    SensorMetaHelper.get_unit "generation" = none := by
  refine ⟨rfl, rfl, by simp, rfl⟩

/-- C9 (amended): metadata inference is total with the stated defaults
— a key matching no unit suffix and not containing the capitalized
substring Generation gets no unit, a key matching no suffix but
containing that capitalized substring gets kWh, an unmapped key keeps
itself as description and gets no icon — and the suffix lookup is
case-insensitive in that it depends only on the lowercased key. -/
theorem meta_inference_defaults :
    (∀ key : String,
      (∀ p ∈ SensorMetaHelper.unit_mapping,
        py_endsWith (py_lower key) p.1 = false) →
      ¬ ("Generation".toList <:+: key.toList) →
      SensorMetaHelper.get_unit key = none) ∧
    (∀ key : String,
      (∀ p ∈ SensorMetaHelper.unit_mapping,
        py_endsWith (py_lower key) p.1 = false) →
      ("Generation".toList <:+: key.toList) →
      SensorMetaHelper.get_unit key = some "kWh") ∧
    (∀ key : String, dget SensorMetaHelper.description_mapping key = none →
      SensorMetaHelper.get_description key = key) ∧
    (∀ key : String, dget SensorMetaHelper.icon_mapping key = none →
      py_startsWith key "pv1" = false → py_startsWith key "pv2" = false →
      py_startsWith key "pv3" = false →
      SensorMetaHelper.get_special_icon key = none) ∧
    (∀ k1 k2 : String, py_lower k1 = py_lower k2 →
      SensorMetaHelper.unit_mapping.find?
          (fun p => py_endsWith (py_lower k1) p.1) =
        SensorMetaHelper.unit_mapping.find?
          (fun p => py_endsWith (py_lower k2) p.1)) := by
  refine ⟨?_, ?_, ?_, ?_, ?_⟩
  · intro key h hgen
    unfold SensorMetaHelper.get_unit
    have hf : SensorMetaHelper.unit_mapping.find?
        (fun p => py_endsWith (py_lower key) p.1) = none := by
      rw [List.find?_eq_none]
      intro p hp
      rw [h p hp]
      simp
    rw [hf]
    dsimp only
    rw [if_neg hgen]
  · intro key h hgen
    unfold SensorMetaHelper.get_unit
    have hf : SensorMetaHelper.unit_mapping.find?
        (fun p => py_endsWith (py_lower key) p.1) = none := by
      rw [List.find?_eq_none]
      intro p hp
      rw [h p hp]
      simp
    rw [hf]
    dsimp only
    rw [if_pos hgen]
  · intro key h
    simp [SensorMetaHelper.get_description, h]
  · intro key h h1 h2 h3
    simp [SensorMetaHelper.get_special_icon, h, h1, h2, h3]
  · intro k1 k2 h12
    rw [h12]

/-- Witness for the metadata defaults at concrete keys. -/
theorem meta_inference_defaults_witness :
    (∀ p ∈ SensorMetaHelper.unit_mapping,
      py_endsWith (py_lower "hello") p.1 = false) ∧
    ¬ ("Generation".toList <:+: "hello".toList) ∧
    SensorMetaHelper.get_unit "hello" = none ∧
    (∀ p ∈ SensorMetaHelper.unit_mapping,
      py_endsWith (py_lower "xyzGeneration") p.1 = false) ∧
    ("Generation".toList <:+: "xyzGeneration".toList) ∧
    SensorMetaHelper.get_unit "xyzGeneration" = some "kWh" ∧
    SensorMetaHelper.get_description "hello" = "hello" ∧
    SensorMetaHelper.get_special_icon "hello" = none :=
  ⟨by decide, by decide,
   meta_inference_defaults.1 "hello" (by decide) (by decide),
   by decide, by decide,
   meta_inference_defaults.2.1 "xyzGeneration" (by decide) (by decide),
   meta_inference_defaults.2.2.1 "hello" (by decide),
   meta_inference_defaults.2.2.2.1 "hello" (by decide) (by decide)
     (by decide) (by decide)⟩

/-- Shape predicate for one photovoltaic string entry: an object whose
pwr field, when present, is numeric. -/
def pwr_shape : J → Bool
  | .obj sm =>
      match dget sm "pwr" with
      | some (J.num _) => true
      | none => true
      | some _ => false
  | _ => false

/-- Statement-side power of one string entry: the pwr field, zero when
absent. -/
def string_pwr : J → Int
  | .obj sm =>
      match dget sm "pwr" with
      | some (J.num k) => k
      | _ => 0
  | _ => 0

/-- The per-string emission loop succeeds on a list of objects. -/
theorem mppt_strings_ok (sn report suffix : String) :
    ∀ (l : List (Nat × J)) (acc : Sensors),
      (∀ p ∈ l, isObj p.2 = true) →
      ∃ S, l.foldlM (emit_mppt_string sn report suffix) acc = .ok S := by
  intro l
  induction l with
  | nil =>
    intro acc _
    exact ⟨acc, rfl⟩
  | cons p t ih =>
    intro acc h
    rw [List.foldlM_cons]
    cases hp : p.2 with
    | obj sm =>
      have hstep : emit_mppt_string sn report suffix acc p =
          .ok ((sm.foldl (fun sensors kv =>
            let key := kv.1
            let uid := sn ++ "_" ++ report ++ "_mpptHeartBeat_mpptPv" ++
              toString (p.1 + 1) ++ "_" ++ key
            let special_icon :=
              if py_endsWith key "amp" then some "mdi:current-dc"
              else if py_endsWith key "pwr" then some "mdi:solar-power"
              else none
            dset sensors uid
              ⟨uid, sn,
               sn ++ "_mpptPv" ++ toString (p.1 + 1) ++ "_" ++ key ++ suffix,
               "mpptPv" ++ toString (p.1 + 1) ++ "_" ++ key ++ suffix,
               kv.2, SensorMetaHelper.get_unit key,
               some (SensorMetaHelper.get_description key),
               special_icon⟩) acc)) := by
        unfold emit_mppt_string
        rw [hp]
        rfl
      rw [hstep]
      obtain ⟨S, hS⟩ := ih _ (fun q hq => h q (List.mem_cons_of_mem p hq))
      exact ⟨S, by simpa [Bind.bind, Except.bind] using hS⟩
    | null => simpa [isObj, hp] using h p (List.mem_cons_self p t)
    | boolean b => simpa [isObj, hp] using h p (List.mem_cons_self p t)
    | num n => simpa [isObj, hp] using h p (List.mem_cons_self p t)
    | str s => simpa [isObj, hp] using h p (List.mem_cons_self p t)
    | arr xs => simpa [isObj, hp] using h p (List.mem_cons_self p t)

/-- The total power fold adds up exactly the per-string powers. -/
theorem mppt_total_ok :
    ∀ (l : List J), (∀ sJ ∈ l, pwr_shape sJ = true) →
      ∀ acc : Int, l.foldlM mppt_pwr_add acc
        = .ok (acc + (l.map string_pwr).sum) := by
  intro l
  induction l with
  | nil => intro _ acc; simp [List.foldlM_nil, pure, Except.pure]
  | cons sJ t ih =>
    intro h acc
    have hsh := h sJ (List.mem_cons_self sJ t)
    have hstep : mppt_pwr_add acc sJ = .ok (acc + string_pwr sJ) := by
      cases hsj : sJ with
      | obj sm =>
        cases hp : dget sm "pwr" with
        | none =>
          simp [mppt_pwr_add, hp, pyNum, string_pwr, Bind.bind, Except.bind,
            pure, Except.pure]
        | some v =>
          cases v with
          | num k =>
            simp [mppt_pwr_add, hp, pyNum, string_pwr, Bind.bind,
              Except.bind, pure, Except.pure]
          | null => rw [hsj] at hsh; simp [pwr_shape, hp] at hsh
          | boolean b => rw [hsj] at hsh; simp [pwr_shape, hp] at hsh
          | str s => rw [hsj] at hsh; simp [pwr_shape, hp] at hsh
          | arr xs => rw [hsj] at hsh; simp [pwr_shape, hp] at hsh
          | obj m => rw [hsj] at hsh; simp [pwr_shape, hp] at hsh
      | null => rw [hsj] at hsh; simp [pwr_shape] at hsh
      | boolean b => rw [hsj] at hsh; simp [pwr_shape] at hsh
      | num n => rw [hsj] at hsh; simp [pwr_shape] at hsh
      | str s => rw [hsj] at hsh; simp [pwr_shape] at hsh
      | arr xs => rw [hsj] at hsh; simp [pwr_shape] at hsh
    rw [List.foldlM_cons, hstep]
    have ht := ih (fun q hq => h q (List.mem_cons_of_mem sJ hq))
      (acc + string_pwr sJ)
    calc (Except.ok (acc + string_pwr sJ) >>= fun b => t.foldlM mppt_pwr_add b)
        = t.foldlM mppt_pwr_add (acc + string_pwr sJ) := rfl
      _ = .ok (acc + string_pwr sJ + (t.map string_pwr).sum) := ht
      _ = .ok (acc + ((sJ :: t).map string_pwr).sum) := by
          rw [List.map_cons, List.sum_cons, Int.add_assoc]

/-- C4: per-instance instance suffixes are assigned in reverse
discovery order — for a per-instance sensor spec whose field path
resolves to the matches A, B, C in that discovery order, the endpoint
numbered 1 carries C, number 2 carries B and number 3 carries A, and
each endpoint name is suffixed with the instance name followed by the
1-based index. -/
theorem per_instance_reverse_order (sn report : String) (dataJ : J)
    (s : SensorCfg) (A B C : J)
    (hpi : s.per_instance = true) (hagg : s.aggregate = none)
    (hm : jfind (base_path report ++ s.path) dataJ = [A, B, C]) :
    ∃ out, process_sensor sn report dataJ [] s = .ok out ∧
      (dget out (sn ++ "_" ++ report ++ "_" ++ field_key s.field ++
          ("_" ++ s.instance_name ++ "1"))).map PowerOceanEndPoint.value
        = some C ∧
      (dget out (sn ++ "_" ++ report ++ "_" ++ field_key s.field ++
          ("_" ++ s.instance_name ++ "2"))).map PowerOceanEndPoint.value
        = some B ∧
      (dget out (sn ++ "_" ++ report ++ "_" ++ field_key s.field ++
          ("_" ++ s.instance_name ++ "3"))).map PowerOceanEndPoint.value
        = some A ∧
      (dget out (sn ++ "_" ++ report ++ "_" ++ field_key s.field ++
          ("_" ++ s.instance_name ++ "1"))).map PowerOceanEndPoint.name
        = some (sn ++ "_" ++ field_key s.field ++
          ("_" ++ s.instance_name ++ "1")) := by
  have hvals : sensor_values report dataJ s = .ok [A, B, C] := by
    unfold sensor_values
    rw [hm, hagg]
    rfl
  have hproc : process_sensor sn report dataJ [] s
      = .ok (emit_sensor sn report s [] [A, B, C]) := by
    unfold process_sensor
    rw [hvals]
    rfl
  have e1 : (toString (0 + 1) : String) = "1" := rfl
  have e2 : (toString (1 + 1) : String) = "2" := rfl
  have e3 : (toString (2 + 1) : String) = "3" := rfl
  set fk := field_key s.field with hfk
  set N := "_" ++ s.instance_name with hN
  set P := sn ++ "_" ++ report ++ "_" ++ fk with hP
  have ne12 : P ++ (N ++ "1") ≠ P ++ (N ++ "2") :=
    append_append_ne _ _ _ _ (by decide)
  have ne13 : P ++ (N ++ "1") ≠ P ++ (N ++ "3") :=
    append_append_ne _ _ _ _ (by decide)
  have ne23 : P ++ (N ++ "2") ≠ P ++ (N ++ "3") :=
    append_append_ne _ _ _ _ (by decide)
  refine ⟨emit_sensor sn report s [] [A, B, C], hproc, ?_, ?_, ?_, ?_⟩ <;>
    simp [emit_sensor, emit_sensor_step, hpi, dmem, dget, dset,
      List.enum, List.enumFrom, e1, e2, e3, ne12, ne13, ne23, Ne.symm ne12,
      Ne.symm ne13, Ne.symm ne23]

/-- Witness for the per-instance reversal at a concrete 3-string
array discovered in order 10, 20, 30. -/
theorem per_instance_reverse_order_witness :
    jfind (base_path "data" ++ [Seg.key "f", Seg.wild])
        (J.obj [("f", J.arr [J.num 10, J.num 20, J.num 30])])
      = [J.num 10, J.num 20, J.num 30] ∧
    ∃ out, process_sensor "SN" "data"
        (J.obj [("f", J.arr [J.num 10, J.num 20, J.num 30])]) []
        ⟨"f", [Seg.key "f", Seg.wild], none, true, "bpack", none⟩
      = .ok out ∧
      (dget out "SN_data_f_bpack1").map PowerOceanEndPoint.value
        = some (J.num 30) ∧
      (dget out "SN_data_f_bpack2").map PowerOceanEndPoint.value
        = some (J.num 20) ∧
      (dget out "SN_data_f_bpack3").map PowerOceanEndPoint.value
        = some (J.num 10) := by
  refine ⟨rfl, ?_⟩
  obtain ⟨out, h0, h1, h2, h3, h4⟩ :=
    per_instance_reverse_order "SN" "data"
      (J.obj [("f", J.arr [J.num 10, J.num 20, J.num 30])])
      ⟨"f", [Seg.key "f", Seg.wild], none, true, "bpack", none⟩
      (J.num 10) (J.num 20) (J.num 30) rfl rfl rfl
  exact ⟨out, h0, h1, h2, h3⟩

/-- pwr_shape entries are objects. -/
theorem pwr_shape_isObj (v : J) (h : pwr_shape v = true) : isObj v = true := by
  cases v <;> simp_all [pwr_shape, isObj]

/-- C7: sum aggregation — an EMS heartbeat report with the per-string
photovoltaic array emits one synthetic total power endpoint whose value
is the sum of the pwr field over all strings, a string without a pwr
field contributing zero; and a sensor spec with aggregate sum collapses
all path matches into exactly one endpoint whose value is their sum. -/
theorem ems_total_and_sum_aggregate :
    (∀ (sn report suffix : String) (sens_select : List String)
       (d fm : List (String × J)) (rest strs : List J) (sensors : Sensors),
      dmem d "pcsBPhase" = false →
      dget d "mpptHeartBeat" = some (J.arr (J.obj fm :: rest)) →
      dget fm "mpptPv" = some (J.arr strs) →
      (∀ sJ ∈ strs, pwr_shape sJ = true) →
      ∃ out, handle_ems_heartbeat_mode sn d sensors report sens_select suffix
          = .ok out ∧
        (dget out (sn ++ "_" ++ report ++
            "_mpptHeartBeat_mpptPv_pwrTotal")).map PowerOceanEndPoint.value
          = some (J.num ((strs.map string_pwr).sum))) ∧
    (∀ (sn report : String) (dataJ : J) (s : SensorCfg) (sensors : Sensors)
       (ms : List J) (t : Int),
      s.aggregate = some "sum" → s.per_instance = false →
      jfind (base_path report ++ s.path) dataJ = ms → ms ≠ [] →
      sum_or_zero ms = .ok t →
      dmem sensors (sn ++ "_" ++ report ++ "_" ++ field_key s.field)
        = false →
      ∃ out, process_sensor sn report dataJ sensors s = .ok out ∧
        (dget out (sn ++ "_" ++ report ++ "_" ++ field_key s.field)).map
          PowerOceanEndPoint.value = some (J.num t) ∧
        out.length = sensors.length + 1) := by
  constructor
  · intro sn report suffix sens_select d fm rest strs sensors hB hm hpv hshape
    have hmm : dmem d "mpptHeartBeat" = true := by
      show (dget d "mpptHeartBeat").isSome = true
      rw [hm]
      rfl
    have hencl : ∀ p ∈ strs.enum, isObj p.2 = true := by
      intro p hp
      have h2 : p.2 ∈ strs := by
        have hmap := List.mem_map_of_mem Prod.snd hp
        rwa [List.enum, List.enumFrom_map_snd] at hmap
      exact pwr_shape_isObj _ (hshape p.2 h2)
    obtain ⟨S, hS⟩ := mppt_strings_ok sn report suffix strs.enum
      (d.foldl (ems_scalar_step sn report suffix sens_select) sensors) hencl
    refine ⟨dset S (sn ++ "_" ++ report ++ "_mpptHeartBeat_mpptPv_pwrTotal")
      ⟨sn ++ "_" ++ report ++ "_mpptHeartBeat_mpptPv_pwrTotal", sn,
       sn ++ "_mpptPv_pwrTotal" ++ suffix, "mpptPv_pwrTotal" ++ suffix,
       J.num (0 + (strs.map string_pwr).sum), some "W",
       some "Solarertrag aller Strings", some "mdi:solar-power"⟩, ?_, ?_⟩
    · unfold handle_ems_heartbeat_mode
      simp only [hB, hmm, hm, hpv, Bool.false_eq_true, if_false, if_true,
        Bind.bind, Except.bind, pure, Except.pure]
      rw [hS, mppt_total_ok strs hshape 0]
    · rw [dget_dset_self]
      simp [Int.zero_add]
  · intro sn report dataJ s sensors ms t hagg hpi hm hne hsum hfresh
    have hvals : sensor_values report dataJ s = .ok [J.num t] := by
      unfold sensor_values
      rw [hm, hagg]
      cases ms with
      | nil => exact absurd rfl hne
      | cons m ms =>
        simp only [List.isEmpty_cons, Bool.false_eq_true, if_false,
          if_true, Option.some.injEq, reduceIte]
        rw [hsum]
        rfl
    have hfresh2 : dmem sensors
        (sn ++ "_" ++ report ++ "_" ++ field_key s.field ++ "") = false := by
      rw [String.append_empty]
      exact hfresh
    refine ⟨emit_sensor sn report s sensors [J.num t], ?_, ?_, ?_⟩
    · unfold process_sensor
      rw [hvals]
      rfl
    · simp only [emit_sensor, emit_sensor_step, hpi, Bool.false_eq_true,
        if_false, List.enum, List.enumFrom, List.foldl_cons, List.foldl_nil,
        hfresh2]
      rw [String.append_empty, dget_dset_self]
      rfl
    · simp only [emit_sensor, emit_sensor_step, hpi, Bool.false_eq_true,
        if_false, List.enum, List.enumFrom, List.foldl_cons, List.foldl_nil,
        hfresh2]
      rw [String.append_empty]
      exact dset_length_fresh sensors _ _ hfresh

/-- Witness for the sum aggregation at the string powers 120, 80 and a
string without a pwr field: the total is 200. -/
theorem ems_total_and_sum_aggregate_witness :
    (∀ sJ ∈ [J.obj [("pwr", J.num 120)], J.obj [("pwr", J.num 80)],
        J.obj []], pwr_shape sJ = true) ∧
    (∃ out, handle_ems_heartbeat_mode "SN"
        [("mpptHeartBeat", J.arr [J.obj [("mpptPv", J.arr
          [J.obj [("pwr", J.num 120)], J.obj [("pwr", J.num 80)],
           J.obj []])]])] [] "R" [] ""
        = .ok out ∧
      (dget out "SN_R_mpptHeartBeat_mpptPv_pwrTotal").map
        PowerOceanEndPoint.value = some (J.num 200)) ∧
    sum_or_zero [J.num 120, J.num 80, J.num 0] = .ok 200 ∧
    (∃ out, process_sensor "SN" "data"
        (J.obj [("f", J.arr [J.num 120, J.num 80, J.num 0])]) []
        ⟨"f", [Seg.key "f", Seg.wild], none, false, "bpack", some "sum"⟩
        = .ok out ∧
      (dget out "SN_data_f").map PowerOceanEndPoint.value
        = some (J.num 200) ∧
      ([] : Sensors).length + 1 = 0 + 1) := by
  refine ⟨by decide, ?_, rfl, ?_⟩
  · obtain ⟨out, h1, h2⟩ := ems_total_and_sum_aggregate.1 "SN" "R" "" []
      [("mpptHeartBeat", J.arr [J.obj [("mpptPv", J.arr
        [J.obj [("pwr", J.num 120)], J.obj [("pwr", J.num 80)],
         J.obj []])]])]
      [("mpptPv", J.arr [J.obj [("pwr", J.num 120)],
        J.obj [("pwr", J.num 80)], J.obj []])] []
      [J.obj [("pwr", J.num 120)], J.obj [("pwr", J.num 80)], J.obj []] []
      rfl rfl rfl (by decide)
    exact ⟨out, h1, h2⟩
  · obtain ⟨out, h1, h2, h3⟩ := ems_total_and_sum_aggregate.2 "SN" "data"
      (J.obj [("f", J.arr [J.num 120, J.num 80, J.num 0])])
      ⟨"f", [Seg.key "f", Seg.wild], none, false, "bpack", some "sum"⟩
      [] [J.num 120, J.num 80, J.num 0] 200 rfl rfl rfl
      (List.cons_ne_nil _ _) rfl rfl
    exact ⟨out, h1, h2, rfl⟩

end PowerOcean
